import Mathlib

/-!
Verification of the parallax motion-to-offset pipeline of
`src/source/jquery.parallax.js`.

JS numbers are modelled as rationals (`ℚ`).  A slot that can hold a
non-numeric JS value (`false`, `NaN`, `undefined`) where a number is
expected is modelled as `Option ℚ`, with `none` standing for the
non-numeric case; this matches the source's own `!isNaN(parseFloat(v))`
tests, which are exactly the `Option.some` discrimination.
-/

namespace Parallax

/-- The composed configuration fields stored on the plugin instance
(`DEFAULTS` keys, source lines 11-21, merged at line 50, with the
`'all ' +` prefix applied to `transition` at line 53).  `limitX = none`
models the non-numeric values (`false`, `NaN`) that fail the
`!isNaN(parseFloat(this.limitX))` test at line 242; likewise `limitY`. -/
structure Config where
  transition : String
  calibrationThreshold : ℚ
  calibrationDelay : ℚ
  invertX : Bool
  invertY : Bool
  limitX : Option ℚ
  limitY : Option ℚ
  scalarX : ℚ
  scalarY : ℚ
  deriving Repr, DecidableEq

/-- The `DEFAULTS` object (source lines 11-21).  `limitX`/`limitY` default
to `false`, i.e. non-numeric, hence `none`. -/
def DEFAULTS : Config where
  transition := "0.5s cubic-bezier(0.165, 0.84, 0.44, 1)"
  calibrationThreshold := 100
  calibrationDelay := 500
  invertX := true
  invertY := true
  limitX := none
  limitY := none
  scalarX := 1/2
  scalarY := 1/2

/-- Explicit constructor options passed to `Plugin(element, options)`:
`none` models a key absent from the options object. -/
structure Options where
  transition : Option String := none
  calibrationThreshold : Option ℚ := none
  calibrationDelay : Option ℚ := none
  invertX : Option Bool := none
  invertY : Option Bool := none
  limitX : Option ℚ := none
  limitY : Option ℚ := none
  scalarX : Option ℚ := none
  scalarY : Option ℚ := none
  deriving Repr, DecidableEq

/-- Per-container declarative `data-*` attributes as read at source lines
34-42: `none` = attribute absent.  For `limit-x`, `limit-y`, `scalar-x`
and `scalar-y` the stored rational is the `parseFloat` result, with
`none` also covering a `NaN` parse of a malformed attribute. -/
structure Attrs where
  transition : Option String := none
  invertX : Option Bool := none
  invertY : Option Bool := none
  limitX : Option ℚ := none
  limitY : Option ℚ := none
  scalarX : Option ℚ := none
  scalarY : Option ℚ := none
  deriving Repr, DecidableEq

/-- The `value || null` coercion of source lines 36-37 on a boolean
attribute: `false` is falsy, so it becomes `null` and is deleted
(lines 45-47). -/
def truthyB : Option Bool → Option Bool
  | some true => some true
  | _ => none

/-- The `parseFloat(value) || null` coercion of source lines 38-41: a
`NaN` parse (already `none` here) and the falsy number `0` become `null`
and are deleted (lines 45-47). -/
def truthyQ : Option ℚ → Option ℚ
  | some q => if q = 0 then none else some q
  | none => none

/-- The `value || null` coercion of source line 35 on a string attribute:
the empty string is falsy, so it becomes `null` and is deleted. -/
def truthyS : Option String → Option String
  | some s => if s = "" then none else some s
  | none => none

/-- One key of `$.extend(this, DEFAULTS, options, data)` (source line 50):
later sources overwrite earlier ones, so a surviving data (attribute)
value beats the explicit option, which beats the default. -/
def pick {α : Type} (attr opt : Option α) (dflt : α) : α :=
  match attr with
  | some v => v
  | none =>
    match opt with
    | some v => v
    | none => dflt

/-- `pick` for the limit keys, whose composed value is kept as
`Option ℚ` (`none` = the default `false`). -/
def pickOpt (attr opt dflt : Option ℚ) : Option ℚ :=
  match attr with
  | some v => some v
  | none =>
    match opt with
    | some v => some v
    | none => dflt

/-- The `Plugin` constructor's settings composition (source lines 33-53):
truthiness-filter the declarative attributes, delete the `null` keys,
merge `DEFAULTS`, then `options`, then the surviving attribute data
(later sources overwrite earlier ones), and finally prepend `"all "` to
the transition. -/
def mkSettings (options : Options) (attrs : Attrs) : Config where
  transition :=
    "all " ++ pick (truthyS attrs.transition) options.transition DEFAULTS.transition
  calibrationThreshold :=
    options.calibrationThreshold.getD DEFAULTS.calibrationThreshold
  calibrationDelay := options.calibrationDelay.getD DEFAULTS.calibrationDelay
  invertX := pick (truthyB attrs.invertX) options.invertX DEFAULTS.invertX
  invertY := pick (truthyB attrs.invertY) options.invertY DEFAULTS.invertY
  limitX := pickOpt (truthyQ attrs.limitX) options.limitX DEFAULTS.limitX
  limitY := pickOpt (truthyQ attrs.limitY) options.limitY DEFAULTS.limitY
  scalarX := pick (truthyQ attrs.scalarX) options.scalarX DEFAULTS.scalarX
  scalarY := pick (truthyQ attrs.scalarY) options.scalarY DEFAULTS.scalarY

/-- The mutable per-instance state of source lines 55-73: orientation
mode (`portrait`), calibration flag and bias `(cx, cy, cz)`, latest
rotation `(rx, ry, rz)`, current offset `(ox, oy)`. -/
structure State where
  portrait : Bool
  calibrationFlag : Bool
  cx : ℚ
  cy : ℚ
  cz : ℚ
  rx : ℚ
  ry : ℚ
  rz : ℚ
  ox : ℚ
  oy : ℚ
  deriving Repr, DecidableEq

/-- The state right after construction: `portrait` is `true` (prototype
default, line 120), the calibration flag is raised (line 57), and all
rotation, bias and offset components are zero (lines 62-73). -/
def initialState : State where
  portrait := true
  calibrationFlag := true
  cx := 0
  cy := 0
  cz := 0
  rx := 0
  ry := 0
  rz := 0
  ox := 0
  oy := 0

/-- `Plugin.prototype.clamp` (source lines 194-198): `Math.max` with the
lower bound first, then `Math.min` with the upper bound. -/
def clamp (value mn mx : ℚ) : ℚ := min (max value mn) mx

/-- A `deviceorientation` event: `none` models a `null`/absent field,
defaulted to `0` by `event.beta || 0` and friends (source lines
260-262). -/
structure Event where
  beta : Option ℚ := none
  gamma : Option ℚ := none
  alpha : Option ℚ := none
  deriving Repr, DecidableEq

/-- The "Detect Orientation Change" block (source lines 264-269):
recompute the mode from the viewport (`portrait` iff
`innerHeight > innerWidth`) and, on a change, store the new mode and
raise the calibration flag. -/
def detectOrientation (s : State) (innerWidth innerHeight : ℚ) : State :=
  let portrait := decide (innerHeight > innerWidth)
  if s.portrait ≠ portrait then
    { s with portrait := portrait, calibrationFlag := true }
  else s

/-- The "Set Calibration Rotation" block (source lines 271-277): when the
calibration flag is set, clear it and copy the current rotation into the
bias; otherwise leave the state untouched. -/
def maybeCapture (s : State) (x y z : ℚ) : State :=
  if s.calibrationFlag then
    { s with calibrationFlag := false, cx := x, cy := y, cz := z }
  else s

/-- The "Set Rotation" block (source lines 279-282). -/
def setRotation (s : State) (x y z : ℚ) : State :=
  { s with rx := x, ry := y, rz := z }

/-- `Plugin.prototype.onDeviceOrientation` (source lines 257-283): default
the event fields, detect an orientation change, maybe capture the bias,
then store the rotation. -/
def onDeviceOrientation (s : State) (e : Event) (innerWidth innerHeight : ℚ) : State :=
  let x := e.beta.getD 0
  let y := e.gamma.getD 0
  let z := e.alpha.getD 0
  setRotation (maybeCapture (detectOrientation s innerWidth innerHeight) x y z) x y z

/-- One positioning command `(xOffset, yOffset)` issued for a layer of
the given depth (source lines 248-253). -/
def layerCommand (cfg : Config) (ox oy depth : ℚ) : ℚ × ℚ :=
  (ox * depth * (if cfg.invertX then -1 else 1),
   oy * depth * (if cfg.invertY then -1 else 1))

/-- What one `onAnimationFrame` call produces: the updated state, the
positioning command issued to each layer in order, and whether
`calibrate(0)` was invoked (threshold exceeded). -/
structure FrameOutput where
  state : State
  commands : List (ℚ × ℚ)
  recalibrated : Bool
  deriving Repr, DecidableEq

/-- `Plugin.prototype.onAnimationFrame` (source lines 229-255): deltas
against the bias, the threshold check, the mode-dependent axis remap
scaled per axis, the per-axis clamp guarded by
`!isNaN(parseFloat(limit))` (a set numeric limit is `some L`), and the
per-layer positioning commands. -/
def onAnimationFrame (cfg : Config) (depths : List ℚ) (s : State) : FrameOutput :=
  let dx := s.rx - s.cx
  let dy := s.ry - s.cy
  let recal :=
    decide (|dx| > cfg.calibrationThreshold) || decide (|dy| > cfg.calibrationThreshold)
  let raw :=
    if s.portrait then (dy * cfg.scalarX, dx * cfg.scalarY)
    else (dx * cfg.scalarX, dy * cfg.scalarY)
  let ox :=
    match cfg.limitX with
    | some L => clamp raw.1 (-L) L
    | none => raw.1
  let oy :=
    match cfg.limitY with
    | some L => clamp raw.2 (-L) L
    | none => raw.2
  { state := { s with ox := ox, oy := oy }
    commands := depths.map fun depth => layerCommand cfg ox oy depth
    recalibrated := recal }

/-- Depth caching in `initialise` (source lines 148-151):
`$(element).data('depth') || 0` — an absent or falsy (zero) depth
attribute yields depth 0. -/
def parseDepth : Option ℚ → ℚ
  | some v => if v = 0 then 0 else v
  | none => 0

/-- The Offset Transform exactly as the spec words it (§4.3): deltas
`dx`, `dy`, mode-dependent axis remap times the per-axis scalar, then a
per-axis clamp to `[-limit, limit]` when that limit is a set numeric
value.  Written from the spec, to be compared with `onAnimationFrame`. -/
def offsetSpec (rx ry cx cy : ℚ) (portrait : Bool) (cfg : Config) : ℚ × ℚ :=
  let dx := rx - cx
  let dy := ry - cy
  let oxRaw := if portrait then dy * cfg.scalarX else dx * cfg.scalarX
  let oyRaw := if portrait then dx * cfg.scalarY else dy * cfg.scalarY
  let ox :=
    match cfg.limitX with
    | some L => clamp oxRaw (-L) L
    | none => oxRaw
  let oy :=
    match cfg.limitY with
    | some L => clamp oyRaw (-L) L
    | none => oyRaw
  (ox, oy)

/-- The browser-side registrations `enable`/`onAnimationFrame` manipulate
(source lines 169-172, 254): the window's list of attached
`deviceorientation` handlers (jQuery `.on` appends a handler
unconditionally, and each `$.proxy` call makes a fresh function) and the
queue of pending `requestAnimationFrame` callbacks with their ids;
`raf` is the single stored id `this.raf`. -/
structure RuntimeState where
  handlers : ℕ
  pendingTicks : List ℕ
  nextId : ℕ
  raf : Option ℕ
  deriving Repr, DecidableEq

/-- The runtime registrations before the first `enable()`. -/
def initialRuntime : RuntimeState where
  handlers := 0
  pendingTicks := []
  nextId := 0
  raf := none

/-- `Plugin.prototype.enable` (source lines 169-172): attach one more
`deviceorientation` handler and request one more animation frame,
storing its id in `this.raf`.  The source keeps no running flag, so
nothing guards re-entry. -/
def enable (s : RuntimeState) : RuntimeState where
  handlers := s.handlers + 1
  pendingTicks := s.pendingTicks ++ [s.nextId]
  nextId := s.nextId + 1
  raf := some s.nextId

/-- Firing the oldest pending `onAnimationFrame` callback: the handler
reschedules itself (source line 254), overwriting `this.raf` with the
new request id. -/
def fireTick (s : RuntimeState) : RuntimeState :=
  match s.pendingTicks with
  | [] => s
  | _ :: rest =>
    { s with
      pendingTicks := rest ++ [s.nextId]
      nextId := s.nextId + 1
      raf := some s.nextId }

/-- Two states that agree on every field except the z components `rz`
and `cz`. -/
def ZAgree (s₁ s₂ : State) : Prop :=
  s₁.portrait = s₂.portrait ∧ s₁.calibrationFlag = s₂.calibrationFlag ∧
    s₁.cx = s₂.cx ∧ s₁.cy = s₂.cy ∧ s₁.rx = s₂.rx ∧ s₁.ry = s₂.ry ∧
    s₁.ox = s₂.ox ∧ s₁.oy = s₂.oy

/-- Sanity check: the spec §8 worked scenario.  Portrait mode, default
scalars `0.5`, bias `(10, 20)`, sample `(15, 25)`: deltas `(5, 5)`, raw
offset `(2.5, 2.5)`, and the depth-1 layer command is `(-2.5, -2.5)`
under the default inversion. -/
theorem scenario_spec_section8 :
    (onAnimationFrame DEFAULTS [1]
        { initialState with calibrationFlag := false, cx := 10, cy := 20, rx := 15, ry := 25 }).state.ox
        = 5/2 ∧
      (onAnimationFrame DEFAULTS [1]
        { initialState with calibrationFlag := false, cx := 10, cy := 20, rx := 15, ry := 25 }).commands
        = [(-(5/2), -(5/2))] := by
  constructor <;> norm_num [onAnimationFrame, DEFAULTS, initialState, layerCommand]

/-- Symmetric clamp stays inside `[-L, L]` when `L` is non-negative. -/
theorem clamp_bounds (v L : ℚ) (h : 0 ≤ L) :
    -L ≤ clamp v (-L) L ∧ clamp v (-L) L ≤ L :=
  ⟨le_min (le_max_right _ _) (neg_le_self h), min_le_right _ _⟩

/-- Symmetric clamp fixes `0` when `L` is non-negative. -/
theorem clamp_zero (L : ℚ) (h : 0 ≤ L) : clamp 0 (-L) L = 0 := by
  unfold clamp
  rw [max_eq_left (by linarith), min_eq_left h]

/-- With a negative `L` the bounds cross (`-L > L`), and because the max
with `-L` is applied before the min with `L`, the result is always `L`. -/
theorem clamp_neg_limit (v L : ℚ) (h : L < 0) : clamp v (-L) L = L := by
  unfold clamp
  exact min_eq_right (le_trans (by linarith) (le_max_right v (-L)))

/-- C1: each frame's Offset Transform follows the spec's §4.3 algorithm:
`dx = rx - cx`, `dy = ry - cy`; in Portrait mode `ox_raw = dy * scalarX`
and `oy_raw = dx * scalarY`, in Landscape mode `ox_raw = dx * scalarX`
and `oy_raw = dy * scalarY`; then each axis is clamped to
`[-limit, limit]` exactly when its limit is a set numeric value. -/
theorem offset_transform_follows_spec (cfg : Config) (depths : List ℚ) (s : State) :
    ((onAnimationFrame cfg depths s).state.ox, (onAnimationFrame cfg depths s).state.oy) =
      offsetSpec s.rx s.ry s.cx s.cy s.portrait cfg := by
  rcases s with ⟨p, f, cx, cy, cz, rx, ry, rz, ox, oy⟩
  cases p <;> cases hX : cfg.limitX <;> cases hY : cfg.limitY <;>
    simp [onAnimationFrame, offsetSpec, hX, hY]

/-- C5: when `limitX` is a set numeric value `L ≥ 0`, the frame's output
`ox` lies in `[-L, L]` for every rotation sample, bias, scalar and
orientation mode, and symmetrically for `limitY`/`oy`. -/
theorem limit_bounds_offset (cfg : Config) (depths : List ℚ) (s : State) :
    (∀ L : ℚ, cfg.limitX = some L → 0 ≤ L →
      -L ≤ (onAnimationFrame cfg depths s).state.ox ∧
        (onAnimationFrame cfg depths s).state.ox ≤ L) ∧
    (∀ L : ℚ, cfg.limitY = some L → 0 ≤ L →
      -L ≤ (onAnimationFrame cfg depths s).state.oy ∧
        (onAnimationFrame cfg depths s).state.oy ≤ L) := by
  refine ⟨fun L hL h0 => ?_, fun L hL h0 => ?_⟩ <;>
    simp only [onAnimationFrame, hL] <;>
    exact clamp_bounds _ _ h0

/-- C9: a negative numeric `limitX = L` pins the frame's output to
exactly `ox = L` for every input, because `clamp` applies `Math.max`
with the lower bound `-L` before `Math.min` with the upper bound `L`;
symmetrically for `limitY`/`oy`. -/
theorem negative_limit_pins_offset (cfg : Config) (depths : List ℚ) (s : State) :
    (∀ L : ℚ, cfg.limitX = some L → L < 0 →
      (onAnimationFrame cfg depths s).state.ox = L) ∧
    (∀ L : ℚ, cfg.limitY = some L → L < 0 →
      (onAnimationFrame cfg depths s).state.oy = L) := by
  refine ⟨fun L hL h0 => ?_, fun L hL h0 => ?_⟩ <;>
    simp only [onAnimationFrame, hL] <;>
    exact clamp_neg_limit _ _ h0

/-- C6: a rotation sample equal to the bias on both axes yields the
offset `(0, 0)`, whatever the orientation mode, the scalars and any
non-negative limit settings. -/
theorem calibrated_sample_zero_offset (cfg : Config) (depths : List ℚ) (s : State)
    (hx : s.rx = s.cx) (hy : s.ry = s.cy)
    (hLX : ∀ L : ℚ, cfg.limitX = some L → 0 ≤ L)
    (hLY : ∀ L : ℚ, cfg.limitY = some L → 0 ≤ L) :
    (onAnimationFrame cfg depths s).state.ox = 0 ∧
      (onAnimationFrame cfg depths s).state.oy = 0 := by
  have hdx : s.rx - s.cx = 0 := by rw [hx, sub_self]
  have hdy : s.ry - s.cy = 0 := by rw [hy, sub_self]
  constructor
  · rcases hX : cfg.limitX with _ | L
    · simp [onAnimationFrame, hdx, hdy, hX]
    · simp [onAnimationFrame, hdx, hdy, hX, clamp_zero L (hLX L hX)]
  · rcases hY : cfg.limitY with _ | L
    · simp [onAnimationFrame, hdx, hdy, hY]
    · simp [onAnimationFrame, hdx, hdy, hY, clamp_zero L (hLY L hY)]

/-- C6 at a concrete input: bias-equal sample, limits `5` and `7`. -/
theorem calibrated_sample_zero_offset_witness :
    (onAnimationFrame { DEFAULTS with limitX := some 5, limitY := some 7 } [1, 2]
        { initialState with cx := 3, cy := 4, rx := 3, ry := 4 }).state.ox = 0 ∧
      (onAnimationFrame { DEFAULTS with limitX := some 5, limitY := some 7 } [1, 2]
        { initialState with cx := 3, cy := 4, rx := 3, ry := 4 }).state.oy = 0 :=
  calibrated_sample_zero_offset _ _ _ rfl rfl
    (fun L hL => by injection hL with h; rw [← h]; norm_num)
    (fun L hL => by injection hL with h; rw [← h]; norm_num)

/-- The "Set Calibration Rotation" block always leaves the calibration
flag clear, whether or not it captured. -/
theorem maybeCapture_flag_false (t : State) (x y z : ℚ) :
    (maybeCapture t x y z).calibrationFlag = false := by
  cases hf : t.calibrationFlag <;> simp [maybeCapture, hf]

/-- C4 counterexample: with viewport width = height = 100 the code sets
`portrait = (innerHeight > innerWidth) = false`, i.e. Landscape — the
claim says a square viewport yields Portrait.  Starting from the initial
Portrait state, processing a sample flips the mode to Landscape. -/
theorem square_viewport_landscape :
    (onDeviceOrientation initialState
        { beta := some 1, gamma := some 2, alpha := some 3 } 100 100).portrait = false := by
  simp [onDeviceOrientation, setRotation, maybeCapture, detectOrientation, initialState]

/-- C4 amended: the orientation mode determined from the viewport on
each processed sample is Portrait exactly when height > width, and
Landscape otherwise — in particular Landscape when width equals
height. -/
theorem orientation_mode_rule (s : State) (e : Event) (w h : ℚ) :
    (onDeviceOrientation s e w h).portrait = decide (h > w) := by
  simp only [onDeviceOrientation, setRotation, maybeCapture, detectOrientation]
  split <;> split <;> simp_all

/-- C7: the bias `(cx, cy, cz)` is captured exactly when the calibration
flag is set at the capture point; the capture clears the flag in the
same step (so each setting of the flag yields at most one capture), and
with the flag clear the bias is left unchanged.  The final conjuncts
ground this in the full `onDeviceOrientation` handler: its bias is
exactly what the capture block produced (after the orientation-change
detection that may itself raise the flag, per §4.2's recalibration
signal), and the flag is always clear afterwards. -/
theorem calibration_capture_once (s : State) (x y z : ℚ) (e : Event) (w h : ℚ) :
    (maybeCapture s x y z).calibrationFlag = false ∧
    (s.calibrationFlag = true →
      (maybeCapture s x y z).cx = x ∧ (maybeCapture s x y z).cy = y ∧
        (maybeCapture s x y z).cz = z) ∧
    (s.calibrationFlag = false →
      (maybeCapture s x y z).cx = s.cx ∧ (maybeCapture s x y z).cy = s.cy ∧
        (maybeCapture s x y z).cz = s.cz) ∧
    ((onDeviceOrientation s e w h).cx
        = (maybeCapture (detectOrientation s w h)
            (e.beta.getD 0) (e.gamma.getD 0) (e.alpha.getD 0)).cx ∧
      (onDeviceOrientation s e w h).cy
        = (maybeCapture (detectOrientation s w h)
            (e.beta.getD 0) (e.gamma.getD 0) (e.alpha.getD 0)).cy ∧
      (onDeviceOrientation s e w h).cz
        = (maybeCapture (detectOrientation s w h)
            (e.beta.getD 0) (e.gamma.getD 0) (e.alpha.getD 0)).cz) ∧
    (onDeviceOrientation s e w h).calibrationFlag = false := by
  refine ⟨maybeCapture_flag_false s x y z, ?_, ?_, ⟨rfl, rfl, rfl⟩, ?_⟩
  · intro hf; simp [maybeCapture, hf]
  · intro hf; simp [maybeCapture, hf]
  · simp [onDeviceOrientation, setRotation, maybeCapture_flag_false]

/-- C8: a layer whose markup supplies no depth attribute (or a falsy
zero depth) is assigned depth 0 at setup, and the frame's positioning
command for it is `(0, 0)` whatever the offsets and inversion flags. -/
theorem default_depth_zero_command (attr : Option ℚ) (h : attr = none ∨ attr = some 0) :
    parseDepth attr = 0 ∧
    ∀ (cfg : Config) (depths : List ℚ) (s : State) (i : ℕ),
      depths[i]? = some (parseDepth attr) →
      (onAnimationFrame cfg depths s).commands[i]? = some (0, 0) := by
  have hd : parseDepth attr = 0 := by rcases h with rfl | rfl <;> simp [parseDepth]
  refine ⟨hd, fun cfg depths s i hi => ?_⟩
  simp only [onAnimationFrame]
  rw [List.getElem?_map, hi, hd]
  simp [layerCommand]

/-- C8 at a concrete input: an absent depth attribute, one layer. -/
theorem default_depth_zero_command_witness :
    parseDepth none = 0 ∧
      (onAnimationFrame DEFAULTS [parseDepth none] initialState).commands[0]?
        = some (0, 0) :=
  ⟨(default_depth_zero_command none (Or.inl rfl)).1,
    (default_depth_zero_command none (Or.inl rfl)).2 DEFAULTS [parseDepth none]
      initialState 0 rfl⟩

/-- C3 (the code evaluated at the failing input): calling `enable()` a
second time on an already-running instance is not a no-op — the second
call attaches a second `deviceorientation` handler and schedules a
second self-perpetuating animation-frame callback, so after the next
frame two ticks are still pending (versus one after a single
`enable()`). -/
theorem enable_twice_not_noop :
    (enable (enable initialRuntime)).handlers = 2 ∧
      (enable initialRuntime).handlers = 1 ∧
      (enable (enable initialRuntime)).pendingTicks.length = 2 ∧
      (enable initialRuntime).pendingTicks.length = 1 ∧
      (fireTick (enable (enable initialRuntime))).pendingTicks.length = 2 ∧
      (fireTick (enable initialRuntime)).pendingTicks.length = 1 := by
  decide

/-- `parseFloat(v) || null` keeps a non-zero parse. -/
theorem truthyQ_some (q : ℚ) (h : q ≠ 0) : truthyQ (some q) = some q := by
  simp [truthyQ, h]

/-- `parseFloat(v) || null` turns the falsy parse `0` into `null`. -/
theorem truthyQ_zero : truthyQ (some 0) = none := by
  simp [truthyQ]

/-- A non-empty transition string survives `v || null`. -/
theorem truthyS_some (t : String) (h : t ≠ "") : truthyS (some t) = some t := by
  simp [truthyS, h]

/-- The empty transition string is falsy and becomes `null`. -/
theorem truthyS_empty : truthyS (some "") = none := by
  simp [truthyS]

/-- A key `$.extend` finds in no later source falls back through the
option to the default. -/
theorem pick_none {α : Type} (opt : Option α) (d : α) :
    pick none opt d = opt.getD d := by
  cases opt <;> rfl

/-- A key present in the attribute data wins the `$.extend` merge. -/
theorem pick_some {α : Type} (v : α) (opt : Option α) (d : α) :
    pick (some v) opt d = v := rfl

/-- `pick_none` for the limit keys with their unset (`false`) default. -/
theorem pickOpt_none (opt : Option ℚ) : pickOpt none opt none = opt := by
  cases opt <;> rfl

/-- `pick_some` for the limit keys. -/
theorem pickOpt_some (v : ℚ) (opt dflt : Option ℚ) :
    pickOpt (some v) opt dflt = some v := rfl

/-- C2 counterexample: with the explicit constructor option
`scalarX = 2` and the declarative attribute `scalar-x = 3`, the composed
instance uses the attribute's `3`, not the explicit option's `2`:
`$.extend(this, DEFAULTS, options, data)` applies the attribute data
last, so attributes overwrite options. -/
theorem attribute_overrides_option :
    (mkSettings { scalarX := some 2 } { scalarX := some 3 }).scalarX = 3 ∧
      (3 : ℚ) ≠ 2 := by
  constructor
  · norm_num [mkSettings, pick, truthyQ]
  · norm_num

/-- C2 amended: for every configuration key supplied both as an explicit
option and as a declarative attribute, the constructed instance uses the
declarative attribute's value (attributes take precedence, because the
merge applies options before the attribute data); an absent or
falsy/NaN attribute value (`0` for the numeric keys, `false` for the
boolean keys, the empty string for `transition`, `none` for a
missing/`NaN` attribute) leaves the explicit option — or, absent that,
the default — in effect rather than acting as an explicit `false`/`0`
override.  For the limit keys the default is the unset `false`, so the
fallback is the option value itself. -/
theorem declarative_attr_precedence (o : Options) (a : Attrs) :
    ((∀ q : ℚ, a.scalarX = some q → q ≠ 0 → (mkSettings o a).scalarX = q) ∧
      ((a.scalarX = none ∨ a.scalarX = some 0) →
        (mkSettings o a).scalarX = o.scalarX.getD DEFAULTS.scalarX)) ∧
    ((∀ q : ℚ, a.scalarY = some q → q ≠ 0 → (mkSettings o a).scalarY = q) ∧
      ((a.scalarY = none ∨ a.scalarY = some 0) →
        (mkSettings o a).scalarY = o.scalarY.getD DEFAULTS.scalarY)) ∧
    ((∀ q : ℚ, a.limitX = some q → q ≠ 0 → (mkSettings o a).limitX = some q) ∧
      ((a.limitX = none ∨ a.limitX = some 0) →
        (mkSettings o a).limitX = o.limitX)) ∧
    ((∀ q : ℚ, a.limitY = some q → q ≠ 0 → (mkSettings o a).limitY = some q) ∧
      ((a.limitY = none ∨ a.limitY = some 0) →
        (mkSettings o a).limitY = o.limitY)) ∧
    ((a.invertX = some true → (mkSettings o a).invertX = true) ∧
      ((a.invertX = none ∨ a.invertX = some false) →
        (mkSettings o a).invertX = o.invertX.getD DEFAULTS.invertX)) ∧
    ((a.invertY = some true → (mkSettings o a).invertY = true) ∧
      ((a.invertY = none ∨ a.invertY = some false) →
        (mkSettings o a).invertY = o.invertY.getD DEFAULTS.invertY)) ∧
    ((∀ t : String, a.transition = some t → t ≠ "" →
        (mkSettings o a).transition = "all " ++ t) ∧
      ((a.transition = none ∨ a.transition = some "") →
        (mkSettings o a).transition = "all " ++ o.transition.getD DEFAULTS.transition)) := by
  refine ⟨⟨fun q hq h0 => ?_, fun hc => ?_⟩, ⟨fun q hq h0 => ?_, fun hc => ?_⟩,
    ⟨fun q hq h0 => ?_, fun hc => ?_⟩, ⟨fun q hq h0 => ?_, fun hc => ?_⟩,
    ⟨fun hb => ?_, fun hc => ?_⟩, ⟨fun hb => ?_, fun hc => ?_⟩,
    ⟨fun t ht h0 => ?_, fun hc => ?_⟩⟩
  · simp [mkSettings, hq, truthyQ_some q h0, pick_some]
  · rcases hc with h | h <;> simp [mkSettings, h, truthyQ, truthyQ_zero, pick_none]
  · simp [mkSettings, hq, truthyQ_some q h0, pick_some]
  · rcases hc with h | h <;> simp [mkSettings, h, truthyQ, truthyQ_zero, pick_none]
  · simp [mkSettings, hq, truthyQ_some q h0, pickOpt_some]
  · rcases hc with h | h <;>
      simp [mkSettings, DEFAULTS, h, truthyQ, truthyQ_zero, pickOpt_none]
  · simp [mkSettings, hq, truthyQ_some q h0, pickOpt_some]
  · rcases hc with h | h <;>
      simp [mkSettings, DEFAULTS, h, truthyQ, truthyQ_zero, pickOpt_none]
  · simp [mkSettings, hb, truthyB, pick_some]
  · rcases hc with h | h <;> simp [mkSettings, h, truthyB, pick_none]
  · simp [mkSettings, hb, truthyB, pick_some]
  · rcases hc with h | h <;> simp [mkSettings, h, truthyB, pick_none]
  · simp [mkSettings, ht, truthyS_some t h0, pick_some]
  · rcases hc with h | h <;> simp [mkSettings, h, truthyS, truthyS_empty, pick_none]

/-- C10: the offsets and every per-layer positioning command are
independent of the z rotation components: two states that agree on
everything but `rz` and `cz` produce identical frame outputs (offsets,
commands and threshold trigger), the frame step preserves the agreement,
and processing two samples that differ only in `alpha` preserves it
too — even though the z values are captured and stored. -/
theorem z_components_noninterference (cfg : Config) (depths : List ℚ)
    (s₁ s₂ : State) (hA : ZAgree s₁ s₂) (e₁ e₂ : Event)
    (hb : e₁.beta = e₂.beta) (hg : e₁.gamma = e₂.gamma) (w h : ℚ) :
    (onAnimationFrame cfg depths s₁).state.ox = (onAnimationFrame cfg depths s₂).state.ox ∧
      (onAnimationFrame cfg depths s₁).state.oy = (onAnimationFrame cfg depths s₂).state.oy ∧
      (onAnimationFrame cfg depths s₁).commands = (onAnimationFrame cfg depths s₂).commands ∧
      (onAnimationFrame cfg depths s₁).recalibrated
        = (onAnimationFrame cfg depths s₂).recalibrated ∧
      ZAgree (onAnimationFrame cfg depths s₁).state (onAnimationFrame cfg depths s₂).state ∧
      ZAgree (onDeviceOrientation s₁ e₁ w h) (onDeviceOrientation s₂ e₂ w h) := by
  obtain ⟨hp, hf, hcx, hcy, hrx, hry, hox, hoy⟩ := hA
  rcases s₁ with ⟨p₁, f₁, cx₁, cy₁, cz₁, rx₁, ry₁, rz₁, ox₁, oy₁⟩
  rcases s₂ with ⟨p₂, f₂, cx₂, cy₂, cz₂, rx₂, ry₂, rz₂, ox₂, oy₂⟩
  rcases e₁ with ⟨b₁, g₁, a₁⟩
  rcases e₂ with ⟨b₂, g₂, a₂⟩
  dsimp only at hp hf hcx hcy hrx hry hox hoy hb hg
  subst hp hf hcx hcy hrx hry hox hoy hb hg
  refine ⟨rfl, rfl, rfl, rfl, ⟨rfl, rfl, rfl, rfl, rfl, rfl, rfl, rfl⟩, ?_⟩
  simp only [onDeviceOrientation, setRotation, maybeCapture, detectOrientation]
  by_cases hc : p₁ = decide (h > w)
  · by_cases hf₁ : f₁ = true <;> simp [ZAgree, hc, hf₁]
  · simp [ZAgree, hc]

/-- C5 at a concrete input: `limitX = 1`, an arbitrarily large sample. -/
theorem limit_bounds_offset_witness :
    -(1 : ℚ) ≤ (onAnimationFrame { DEFAULTS with limitX := some 1 } []
        { initialState with ry := 100 }).state.ox ∧
      (onAnimationFrame { DEFAULTS with limitX := some 1 } []
        { initialState with ry := 100 }).state.ox ≤ 1 :=
  (limit_bounds_offset { DEFAULTS with limitX := some 1 } []
      { initialState with ry := 100 }).1 1 rfl (by norm_num)

/-- C9 at a concrete input: `limitX = -2` pins `ox` to `-2`. -/
theorem negative_limit_pins_offset_witness :
    (onAnimationFrame { DEFAULTS with limitX := some (-2) } [] initialState).state.ox
      = -2 :=
  (negative_limit_pins_offset { DEFAULTS with limitX := some (-2) } [] initialState).1
    (-2) rfl (by norm_num)

/-- C10 at a concrete input: states differing only in `rz`/`cz`, events
differing only in `alpha`. -/
theorem z_components_noninterference_witness :
    (onAnimationFrame DEFAULTS [1] { initialState with rz := 9, cz := 4 }).commands
        = (onAnimationFrame DEFAULTS [1] initialState).commands ∧
      ZAgree
        (onDeviceOrientation { initialState with rz := 9, cz := 4 }
          { alpha := some 1 } 2 3)
        (onDeviceOrientation initialState { alpha := some 2 } 2 3) :=
  ⟨(z_components_noninterference DEFAULTS [1] { initialState with rz := 9, cz := 4 }
        initialState ⟨rfl, rfl, rfl, rfl, rfl, rfl, rfl, rfl⟩
        { alpha := some 1 } { alpha := some 2 } rfl rfl 2 3).2.2.1,
    (z_components_noninterference DEFAULTS [1] { initialState with rz := 9, cz := 4 }
        initialState ⟨rfl, rfl, rfl, rfl, rfl, rfl, rfl, rfl⟩
        { alpha := some 1 } { alpha := some 2 } rfl rfl 2 3).2.2.2.2.2⟩

end Parallax
